import Mathlib

/-!
Shallow embedding of `src/enums.ts` of the doppio JVM emulator core.

The TypeScript module defines enumerations (`ClassState`, `ThreadStatus`,
`Constants`, `OpCode`, `OpcodeLayoutType`) and builds the opcode
operand-layout table `OpcodeLayouts`: a JavaScript array `olt` of length
`0xff` created by `new Array(0xff)`, initialized to `OPCODE_ONLY` by a loop
`for (var i = 0; i < 0xff; i++)`, and then mutated by a sequence of
`assignOpcodeLayout(layoutType, opcodes)` calls, each of which executes
`olt[opcode] = layoutType` for every opcode in its list.

The embedding uses a `List OpcodeLayoutType` for the array; indexing with
`l[i]?` returns `none` exactly where a JavaScript read `olt[i]` would
return `undefined` (an index at or beyond the array length).  TypeScript
numeric enums are embedded as `Nat` constants carrying the same names and
values, and each enum of distinct tags becomes an inductive type.
-/

set_option maxRecDepth 8000
set_option maxHeartbeats 1000000

/-- `ClassState` enum: auto-numbered 0,1,2,3 in declaration order. -/
inductive ClassState
  | NOT_LOADED
  | LOADED
  | RESOLVED
  | INITIALIZED
deriving DecidableEq

/-- Numeric value the TypeScript enum assigns to each `ClassState` tag. -/
def ClassState.val : ClassState → Nat
  | .NOT_LOADED => 0
  | .LOADED => 1
  | .RESOLVED => 2
  | .INITIALIZED => 3

/-- `ThreadStatus` enum: auto-numbered 0..9 in declaration order. -/
inductive ThreadStatus
  | NEW
  | RUNNING
  | RUNNABLE
  | BLOCKED
  | UNINTERRUPTABLY_BLOCKED
  | WAITING
  | TIMED_WAITING
  | ASYNC_WAITING
  | PARKED
  | TERMINATED
deriving DecidableEq

/-- Interprets a bit pattern below `2 ^ 32` as a 32-bit two's-complement
signed integer (the value a JavaScript `x | 0` coercion produces). -/
def toInt32 (bits : Nat) : Int :=
  if bits % 2 ^ 32 < 2 ^ 31 then ((bits % 2 ^ 32 : Nat) : Int)
  else ((bits % 2 ^ 32 : Nat) : Int) - 2 ^ 32

/-- `Constants.INT_MAX = Math.pow(2, 31) - 1`. -/
def Constants.INT_MAX : Int := 2 ^ 31 - 1

/-- `Constants.INT_MIN = -INT_MAX - 1`. -/
def Constants.INT_MIN : Int := -Constants.INT_MAX - 1

/-- `Constants.FLOAT_POS_INFINITY_AS_INT = 0x7F800000`. -/
def Constants.FLOAT_POS_INFINITY_AS_INT : Int := 0x7F800000

/-- `Constants.FLOAT_NEG_INFINITY_AS_INT = -8388608`. -/
def Constants.FLOAT_NEG_INFINITY_AS_INT : Int := -8388608

/-- `Constants.FLOAT_NaN_AS_INT = 0x7fc00000`. -/
def Constants.FLOAT_NaN_AS_INT : Int := 0x7fc00000

/-! `OpCode` enum members: each opcode name bound to its byte value, verbatim
from `enums.ts` (0xfe/0xff, IMPDEP1/IMPDEP2, are commented out there). -/

def OpCode.AALOAD : Nat := 0x32
def OpCode.AASTORE : Nat := 0x53
def OpCode.ACONST_NULL : Nat := 0x1
def OpCode.ALOAD : Nat := 0x19
def OpCode.ALOAD_0 : Nat := 0x2a
def OpCode.ALOAD_1 : Nat := 0x2b
def OpCode.ALOAD_2 : Nat := 0x2c
def OpCode.ALOAD_3 : Nat := 0x2d
def OpCode.ANEWARRAY : Nat := 0xbd
def OpCode.ARETURN : Nat := 0xb0
def OpCode.ARRAYLENGTH : Nat := 0xbe
def OpCode.ASTORE : Nat := 0x3a
def OpCode.ASTORE_0 : Nat := 0x4b
def OpCode.ASTORE_1 : Nat := 0x4c
def OpCode.ASTORE_2 : Nat := 0x4d
def OpCode.ASTORE_3 : Nat := 0x4e
def OpCode.ATHROW : Nat := 0xbf
def OpCode.BALOAD : Nat := 0x33
def OpCode.BASTORE : Nat := 0x54
def OpCode.BIPUSH : Nat := 0x10
def OpCode.BREAKPOINT : Nat := 0xca
def OpCode.CALOAD : Nat := 0x34
def OpCode.CASTORE : Nat := 0x55
def OpCode.CHECKCAST : Nat := 0xc0
def OpCode.D2F : Nat := 0x90
def OpCode.D2I : Nat := 0x8e
def OpCode.D2L : Nat := 0x8f
def OpCode.DADD : Nat := 0x63
def OpCode.DALOAD : Nat := 0x31
def OpCode.DASTORE : Nat := 0x52
def OpCode.DCMPG : Nat := 0x98
def OpCode.DCMPL : Nat := 0x97
def OpCode.DCONST_0 : Nat := 0xe
def OpCode.DCONST_1 : Nat := 0xf
def OpCode.DDIV : Nat := 0x6f
def OpCode.DLOAD : Nat := 0x18
def OpCode.DLOAD_0 : Nat := 0x26
def OpCode.DLOAD_1 : Nat := 0x27
def OpCode.DLOAD_2 : Nat := 0x28
def OpCode.DLOAD_3 : Nat := 0x29
def OpCode.DMUL : Nat := 0x6b
def OpCode.DNEG : Nat := 0x77
def OpCode.DREM : Nat := 0x73
def OpCode.DRETURN : Nat := 0xaf
def OpCode.DSTORE : Nat := 0x39
def OpCode.DSTORE_0 : Nat := 0x47
def OpCode.DSTORE_1 : Nat := 0x48
def OpCode.DSTORE_2 : Nat := 0x49
def OpCode.DSTORE_3 : Nat := 0x4a
def OpCode.DSUB : Nat := 0x67
def OpCode.DUP : Nat := 0x59
def OpCode.DUP_X1 : Nat := 0x5a
def OpCode.DUP_X2 : Nat := 0x5b
def OpCode.DUP2 : Nat := 0x5c
def OpCode.DUP2_X1 : Nat := 0x5d
def OpCode.DUP2_X2 : Nat := 0x5e
def OpCode.F2D : Nat := 0x8d
def OpCode.F2I : Nat := 0x8b
def OpCode.F2L : Nat := 0x8c
def OpCode.FADD : Nat := 0x62
def OpCode.FALOAD : Nat := 0x30
def OpCode.FASTORE : Nat := 0x51
def OpCode.FCMPG : Nat := 0x96
def OpCode.FCMPL : Nat := 0x95
def OpCode.FCONST_0 : Nat := 0xb
def OpCode.FCONST_1 : Nat := 0xc
def OpCode.FCONST_2 : Nat := 0xd
def OpCode.FDIV : Nat := 0x6e
def OpCode.FLOAD : Nat := 0x17
def OpCode.FLOAD_0 : Nat := 0x22
def OpCode.FLOAD_1 : Nat := 0x23
def OpCode.FLOAD_2 : Nat := 0x24
def OpCode.FLOAD_3 : Nat := 0x25
def OpCode.FMUL : Nat := 0x6a
def OpCode.FNEG : Nat := 0x76
def OpCode.FREM : Nat := 0x72
def OpCode.FRETURN : Nat := 0xae
def OpCode.FSTORE : Nat := 0x38
def OpCode.FSTORE_0 : Nat := 0x43
def OpCode.FSTORE_1 : Nat := 0x44
def OpCode.FSTORE_2 : Nat := 0x45
def OpCode.FSTORE_3 : Nat := 0x46
def OpCode.FSUB : Nat := 0x66
def OpCode.GETFIELD : Nat := 0xb4
def OpCode.GETSTATIC : Nat := 0xb2
def OpCode.GOTO : Nat := 0xa7
def OpCode.GOTO_W : Nat := 0xc8
def OpCode.I2B : Nat := 0x91
def OpCode.I2C : Nat := 0x92
def OpCode.I2D : Nat := 0x87
def OpCode.I2F : Nat := 0x86
def OpCode.I2L : Nat := 0x85
def OpCode.I2S : Nat := 0x93
def OpCode.IADD : Nat := 0x60
def OpCode.IALOAD : Nat := 0x2e
def OpCode.IAND : Nat := 0x7e
def OpCode.IASTORE : Nat := 0x4f
def OpCode.ICONST_M1 : Nat := 0x2
def OpCode.ICONST_0 : Nat := 0x3
def OpCode.ICONST_1 : Nat := 0x4
def OpCode.ICONST_2 : Nat := 0x5
def OpCode.ICONST_3 : Nat := 0x6
def OpCode.ICONST_4 : Nat := 0x7
def OpCode.ICONST_5 : Nat := 0x8
def OpCode.IDIV : Nat := 0x6c
def OpCode.IF_ACMPEQ : Nat := 0xa5
def OpCode.IF_ACMPNE : Nat := 0xa6
def OpCode.IF_ICMPEQ : Nat := 0x9f
def OpCode.IF_ICMPGE : Nat := 0xa2
def OpCode.IF_ICMPGT : Nat := 0xa3
def OpCode.IF_ICMPLE : Nat := 0xa4
def OpCode.IF_ICMPLT : Nat := 0xa1
def OpCode.IF_ICMPNE : Nat := 0xa0
def OpCode.IFEQ : Nat := 0x99
def OpCode.IFGE : Nat := 0x9c
def OpCode.IFGT : Nat := 0x9d
def OpCode.IFLE : Nat := 0x9e
def OpCode.IFLT : Nat := 0x9b
def OpCode.IFNE : Nat := 0x9a
def OpCode.IFNONNULL : Nat := 0xc7
def OpCode.IFNULL : Nat := 0xc6
def OpCode.IINC : Nat := 0x84
def OpCode.ILOAD : Nat := 0x15
def OpCode.ILOAD_0 : Nat := 0x1a
def OpCode.ILOAD_1 : Nat := 0x1b
def OpCode.ILOAD_2 : Nat := 0x1c
def OpCode.ILOAD_3 : Nat := 0x1d
def OpCode.IMUL : Nat := 0x68
def OpCode.INEG : Nat := 0x74
def OpCode.INSTANCEOF : Nat := 0xc1
def OpCode.INVOKEDYNAMIC : Nat := 0xba
def OpCode.INVOKEINTERFACE : Nat := 0xb9
def OpCode.INVOKESPECIAL : Nat := 0xb7
def OpCode.INVOKESTATIC : Nat := 0xb8
def OpCode.INVOKEVIRTUAL : Nat := 0xb6
def OpCode.IOR : Nat := 0x80
def OpCode.IREM : Nat := 0x70
def OpCode.IRETURN : Nat := 0xac
def OpCode.ISHL : Nat := 0x78
def OpCode.ISHR : Nat := 0x7a
def OpCode.ISTORE : Nat := 0x36
def OpCode.ISTORE_0 : Nat := 0x3b
def OpCode.ISTORE_1 : Nat := 0x3c
def OpCode.ISTORE_2 : Nat := 0x3d
def OpCode.ISTORE_3 : Nat := 0x3e
def OpCode.ISUB : Nat := 0x64
def OpCode.IUSHR : Nat := 0x7c
def OpCode.IXOR : Nat := 0x82
def OpCode.JSR : Nat := 0xa8
def OpCode.JSR_W : Nat := 0xc9
def OpCode.L2D : Nat := 0x8a
def OpCode.L2F : Nat := 0x89
def OpCode.L2I : Nat := 0x88
def OpCode.LADD : Nat := 0x61
def OpCode.LALOAD : Nat := 0x2f
def OpCode.LAND : Nat := 0x7f
def OpCode.LASTORE : Nat := 0x50
def OpCode.LCMP : Nat := 0x94
def OpCode.LCONST_0 : Nat := 0x9
def OpCode.LCONST_1 : Nat := 0xa
def OpCode.LDC : Nat := 0x12
def OpCode.LDC_W : Nat := 0x13
def OpCode.LDC2_W : Nat := 0x14
def OpCode.LDIV : Nat := 0x6d
def OpCode.LLOAD : Nat := 0x16
def OpCode.LLOAD_0 : Nat := 0x1e
def OpCode.LLOAD_1 : Nat := 0x1f
def OpCode.LLOAD_2 : Nat := 0x20
def OpCode.LLOAD_3 : Nat := 0x21
def OpCode.LMUL : Nat := 0x69
def OpCode.LNEG : Nat := 0x75
def OpCode.LOOKUPSWITCH : Nat := 0xab
def OpCode.LOR : Nat := 0x81
def OpCode.LREM : Nat := 0x71
def OpCode.LRETURN : Nat := 0xad
def OpCode.LSHL : Nat := 0x79
def OpCode.LSHR : Nat := 0x7b
def OpCode.LSTORE : Nat := 0x37
def OpCode.LSTORE_0 : Nat := 0x3f
def OpCode.LSTORE_1 : Nat := 0x40
def OpCode.LSTORE_2 : Nat := 0x41
def OpCode.LSTORE_3 : Nat := 0x42
def OpCode.LSUB : Nat := 0x65
def OpCode.LUSHR : Nat := 0x7d
def OpCode.LXOR : Nat := 0x83
def OpCode.MONITORENTER : Nat := 0xc2
def OpCode.MONITOREXIT : Nat := 0xc3
def OpCode.MULTIANEWARRAY : Nat := 0xc5
def OpCode.NEW : Nat := 0xbb
def OpCode.NEWARRAY : Nat := 0xbc
def OpCode.NOP : Nat := 0x0
def OpCode.POP : Nat := 0x57
def OpCode.POP2 : Nat := 0x58
def OpCode.PUTFIELD : Nat := 0xb5
def OpCode.PUTSTATIC : Nat := 0xb3
def OpCode.RET : Nat := 0xa9
def OpCode.RETURN : Nat := 0xb1
def OpCode.SALOAD : Nat := 0x35
def OpCode.SASTORE : Nat := 0x56
def OpCode.SIPUSH : Nat := 0x11
def OpCode.SWAP : Nat := 0x5f
def OpCode.TABLESWITCH : Nat := 0xaa
def OpCode.WIDE : Nat := 0xc4
def OpCode.GETSTATIC_FAST32 : Nat := 0xd0
def OpCode.GETSTATIC_FAST64 : Nat := 0xd1
def OpCode.NEW_FAST : Nat := 0xd2
def OpCode.NEW_CL_FAST : Nat := 0xd3
def OpCode.NEW_THREAD_FAST : Nat := 0xd4
def OpCode.ANEWARRAY_FAST : Nat := 0xd5
def OpCode.CHECKCAST_FAST : Nat := 0xd6
def OpCode.INSTANCEOF_FAST : Nat := 0xd7
def OpCode.MULTIANEWARRAY_FAST : Nat := 0xd8
def OpCode.PUTSTATIC_FAST32 : Nat := 0xd9
def OpCode.PUTSTATIC_FAST64 : Nat := 0xda
def OpCode.GETFIELD_FAST32 : Nat := 0xdb
def OpCode.GETFIELD_FAST64 : Nat := 0xdc
def OpCode.PUTFIELD_FAST32 : Nat := 0xdd
def OpCode.PUTFIELD_FAST64 : Nat := 0xde
def OpCode.INVOKESPECIAL_FAST : Nat := 0xdf
def OpCode.INVOKESTATIC_FAST : Nat := 0xf0
def OpCode.INVOKEVIRTUAL_FAST : Nat := 0xf1
def OpCode.INVOKEINTERFACE_FAST : Nat := 0xf2

def opCodeValues : List Nat :=
  [OpCode.AALOAD,
   OpCode.AASTORE,
   OpCode.ACONST_NULL,
   OpCode.ALOAD,
   OpCode.ALOAD_0,
   OpCode.ALOAD_1,
   OpCode.ALOAD_2,
   OpCode.ALOAD_3,
   OpCode.ANEWARRAY,
   OpCode.ARETURN,
   OpCode.ARRAYLENGTH,
   OpCode.ASTORE,
   OpCode.ASTORE_0,
   OpCode.ASTORE_1,
   OpCode.ASTORE_2,
   OpCode.ASTORE_3,
   OpCode.ATHROW,
   OpCode.BALOAD,
   OpCode.BASTORE,
   OpCode.BIPUSH,
   OpCode.BREAKPOINT,
   OpCode.CALOAD,
   OpCode.CASTORE,
   OpCode.CHECKCAST,
   OpCode.D2F,
   OpCode.D2I,
   OpCode.D2L,
   OpCode.DADD,
   OpCode.DALOAD,
   OpCode.DASTORE,
   OpCode.DCMPG,
   OpCode.DCMPL,
   OpCode.DCONST_0,
   OpCode.DCONST_1,
   OpCode.DDIV,
   OpCode.DLOAD,
   OpCode.DLOAD_0,
   OpCode.DLOAD_1,
   OpCode.DLOAD_2,
   OpCode.DLOAD_3,
   OpCode.DMUL,
   OpCode.DNEG,
   OpCode.DREM,
   OpCode.DRETURN,
   OpCode.DSTORE,
   OpCode.DSTORE_0,
   OpCode.DSTORE_1,
   OpCode.DSTORE_2,
   OpCode.DSTORE_3,
   OpCode.DSUB,
   OpCode.DUP,
   OpCode.DUP_X1,
   OpCode.DUP_X2,
   OpCode.DUP2,
   OpCode.DUP2_X1,
   OpCode.DUP2_X2,
   OpCode.F2D,
   OpCode.F2I,
   OpCode.F2L,
   OpCode.FADD,
   OpCode.FALOAD,
   OpCode.FASTORE,
   OpCode.FCMPG,
   OpCode.FCMPL,
   OpCode.FCONST_0,
   OpCode.FCONST_1,
   OpCode.FCONST_2,
   OpCode.FDIV,
   OpCode.FLOAD,
   OpCode.FLOAD_0,
   OpCode.FLOAD_1,
   OpCode.FLOAD_2,
   OpCode.FLOAD_3,
   OpCode.FMUL,
   OpCode.FNEG,
   OpCode.FREM,
   OpCode.FRETURN,
   OpCode.FSTORE,
   OpCode.FSTORE_0,
   OpCode.FSTORE_1,
   OpCode.FSTORE_2,
   OpCode.FSTORE_3,
   OpCode.FSUB,
   OpCode.GETFIELD,
   OpCode.GETSTATIC,
   OpCode.GOTO,
   OpCode.GOTO_W,
   OpCode.I2B,
   OpCode.I2C,
   OpCode.I2D,
   OpCode.I2F,
   OpCode.I2L,
   OpCode.I2S,
   OpCode.IADD,
   OpCode.IALOAD,
   OpCode.IAND,
   OpCode.IASTORE,
   OpCode.ICONST_M1,
   OpCode.ICONST_0,
   OpCode.ICONST_1,
   OpCode.ICONST_2,
   OpCode.ICONST_3,
   OpCode.ICONST_4,
   OpCode.ICONST_5,
   OpCode.IDIV,
   OpCode.IF_ACMPEQ,
   OpCode.IF_ACMPNE,
   OpCode.IF_ICMPEQ,
   OpCode.IF_ICMPGE,
   OpCode.IF_ICMPGT,
   OpCode.IF_ICMPLE,
   OpCode.IF_ICMPLT,
   OpCode.IF_ICMPNE,
   OpCode.IFEQ,
   OpCode.IFGE,
   OpCode.IFGT,
   OpCode.IFLE,
   OpCode.IFLT,
   OpCode.IFNE,
   OpCode.IFNONNULL,
   OpCode.IFNULL,
   OpCode.IINC,
   OpCode.ILOAD,
   OpCode.ILOAD_0,
   OpCode.ILOAD_1,
   OpCode.ILOAD_2,
   OpCode.ILOAD_3,
   OpCode.IMUL,
   OpCode.INEG,
   OpCode.INSTANCEOF,
   OpCode.INVOKEDYNAMIC,
   OpCode.INVOKEINTERFACE,
   OpCode.INVOKESPECIAL,
   OpCode.INVOKESTATIC,
   OpCode.INVOKEVIRTUAL,
   OpCode.IOR,
   OpCode.IREM,
   OpCode.IRETURN,
   OpCode.ISHL,
   OpCode.ISHR,
   OpCode.ISTORE,
   OpCode.ISTORE_0,
   OpCode.ISTORE_1,
   OpCode.ISTORE_2,
   OpCode.ISTORE_3,
   OpCode.ISUB,
   OpCode.IUSHR,
   OpCode.IXOR,
   OpCode.JSR,
   OpCode.JSR_W,
   OpCode.L2D,
   OpCode.L2F,
   OpCode.L2I,
   OpCode.LADD,
   OpCode.LALOAD,
   OpCode.LAND,
   OpCode.LASTORE,
   OpCode.LCMP,
   OpCode.LCONST_0,
   OpCode.LCONST_1,
   OpCode.LDC,
   OpCode.LDC_W,
   OpCode.LDC2_W,
   OpCode.LDIV,
   OpCode.LLOAD,
   OpCode.LLOAD_0,
   OpCode.LLOAD_1,
   OpCode.LLOAD_2,
   OpCode.LLOAD_3,
   OpCode.LMUL,
   OpCode.LNEG,
   OpCode.LOOKUPSWITCH,
   OpCode.LOR,
   OpCode.LREM,
   OpCode.LRETURN,
   OpCode.LSHL,
   OpCode.LSHR,
   OpCode.LSTORE,
   OpCode.LSTORE_0,
   OpCode.LSTORE_1,
   OpCode.LSTORE_2,
   OpCode.LSTORE_3,
   OpCode.LSUB,
   OpCode.LUSHR,
   OpCode.LXOR,
   OpCode.MONITORENTER,
   OpCode.MONITOREXIT,
   OpCode.MULTIANEWARRAY,
   OpCode.NEW,
   OpCode.NEWARRAY,
   OpCode.NOP,
   OpCode.POP,
   OpCode.POP2,
   OpCode.PUTFIELD,
   OpCode.PUTSTATIC,
   OpCode.RET,
   OpCode.RETURN,
   OpCode.SALOAD,
   OpCode.SASTORE,
   OpCode.SIPUSH,
   OpCode.SWAP,
   OpCode.TABLESWITCH,
   OpCode.WIDE,
   OpCode.GETSTATIC_FAST32,
   OpCode.GETSTATIC_FAST64,
   OpCode.NEW_FAST,
   OpCode.NEW_CL_FAST,
   OpCode.NEW_THREAD_FAST,
   OpCode.ANEWARRAY_FAST,
   OpCode.CHECKCAST_FAST,
   OpCode.INSTANCEOF_FAST,
   OpCode.MULTIANEWARRAY_FAST,
   OpCode.PUTSTATIC_FAST32,
   OpCode.PUTSTATIC_FAST64,
   OpCode.GETFIELD_FAST32,
   OpCode.GETFIELD_FAST64,
   OpCode.PUTFIELD_FAST32,
   OpCode.PUTFIELD_FAST64,
   OpCode.INVOKESPECIAL_FAST,
   OpCode.INVOKESTATIC_FAST,
   OpCode.INVOKEVIRTUAL_FAST,
   OpCode.INVOKEINTERFACE_FAST]

/-- `OpcodeLayoutType` enum: auto-numbered 0..9 in declaration order. -/
inductive OpcodeLayoutType
  | OPCODE_ONLY
  | CONSTANT_POOL_UINT8
  | CONSTANT_POOL
  | CONSTANT_POOL_AND_UINT8_VALUE
  | UINT8_VALUE
  | UINT8_AND_INT8_VALUE
  | INT8_VALUE
  | INT16_VALUE
  | INT32_VALUE
  | ARRAY_TYPE
  | WIDE
deriving DecidableEq

/-- The freshly created layout array after `new Array(0xff)` and the
initialization loop `for (var i = 0; i < 0xff; i++) olt[i] = OPCODE_ONLY`:
an array of length `0xff` (255), every slot `OPCODE_ONLY`. -/
def oltInit : List OpcodeLayoutType := List.replicate 0xff .OPCODE_ONLY

/-- `assignOpcodeLayout(layoutType, opcodes)`: runs `olt[opcode] = layoutType`
for each opcode in the list, in order.  The mutated global `olt` is made an
explicit argument and result.  Every opcode in the source's calls is below
the array length (proved below), so `List.set` matches the JavaScript
element assignment. -/
def assignOpcodeLayout (olt : List OpcodeLayoutType)
    (layoutType : OpcodeLayoutType) (opcodes : List Nat) :
    List OpcodeLayoutType :=
  opcodes.foldl (fun t opcode => t.set opcode layoutType) olt

/-- The nine `assignOpcodeLayout` calls at the bottom of `enums.ts`, in
source order, with their opcode lists verbatim. -/
def layoutAssignments : List (OpcodeLayoutType × List Nat) :=
  [(.UINT8_VALUE,
    [OpCode.ALOAD, OpCode.ASTORE, OpCode.DLOAD, OpCode.DSTORE,
     OpCode.FLOAD, OpCode.FSTORE, OpCode.ILOAD, OpCode.ISTORE,
     OpCode.LLOAD, OpCode.LSTORE, OpCode.RET]),
   (.CONSTANT_POOL_UINT8, [OpCode.LDC]),
   (.CONSTANT_POOL,
    [OpCode.LDC_W, OpCode.LDC2_W,
     OpCode.ANEWARRAY, OpCode.CHECKCAST, OpCode.GETFIELD,
     OpCode.GETSTATIC, OpCode.INSTANCEOF, OpCode.INVOKEDYNAMIC,
     OpCode.INVOKESPECIAL, OpCode.INVOKESTATIC, OpCode.INVOKEVIRTUAL,
     OpCode.NEW, OpCode.PUTFIELD, OpCode.PUTSTATIC, OpCode.MULTIANEWARRAY_FAST,
     OpCode.INVOKESPECIAL_FAST, OpCode.INVOKESTATIC_FAST, OpCode.CHECKCAST_FAST,
     OpCode.NEW_FAST, OpCode.NEW_CL_FAST, OpCode.NEW_THREAD_FAST,
     OpCode.ANEWARRAY_FAST, OpCode.INSTANCEOF_FAST, OpCode.GETSTATIC_FAST32,
     OpCode.GETSTATIC_FAST64, OpCode.PUTSTATIC_FAST32, OpCode.PUTSTATIC_FAST64,
     OpCode.PUTFIELD_FAST32, OpCode.PUTFIELD_FAST64,
     OpCode.GETFIELD_FAST32, OpCode.GETFIELD_FAST64, OpCode.INVOKEVIRTUAL_FAST]),
   (.CONSTANT_POOL_AND_UINT8_VALUE,
    [OpCode.INVOKEINTERFACE, OpCode.MULTIANEWARRAY, OpCode.INVOKEINTERFACE_FAST]),
   (.INT8_VALUE, [OpCode.BIPUSH]),
   (.INT16_VALUE,
    [OpCode.SIPUSH, OpCode.GOTO, OpCode.IFGT, OpCode.IFEQ, OpCode.IFGE, OpCode.IFLE,
     OpCode.IFLT, OpCode.IFNE, OpCode.IFNULL, OpCode.IFNONNULL, OpCode.IF_ICMPLE,
     OpCode.IF_ACMPEQ, OpCode.IF_ACMPNE, OpCode.IF_ICMPEQ, OpCode.IF_ICMPGE,
     OpCode.IF_ICMPGT, OpCode.IF_ICMPLT, OpCode.IF_ICMPNE, OpCode.JSR]),
   (.INT32_VALUE, [OpCode.GOTO_W, OpCode.JSR_W]),
   (.UINT8_AND_INT8_VALUE, [OpCode.IINC]),
   (.ARRAY_TYPE, [OpCode.NEWARRAY])]

/-- The exported `OpcodeLayouts` table: the initialized array after all nine
`assignOpcodeLayout` calls have run in source order. -/
def OpcodeLayouts : List OpcodeLayoutType :=
  layoutAssignments.foldl (fun t p => assignOpcodeLayout t p.1 p.2) oltInit

/-- `layoutOf(opcode)`: the table lookup `OpcodeLayouts[opcode]` a consumer
performs.  A JavaScript read past the end of the array yields `undefined`,
embedded as `none`. -/
def layoutOf (opcode : Nat) : Option OpcodeLayoutType := OpcodeLayouts[opcode]?

/-- Every opcode of the nine assignment lists, concatenated in order. -/
def allAssignedOpcodes : List Nat := (layoutAssignments.map Prod.snd).flatten

/-- The value the table construction computes, written out slot by slot
(length 255); its equality with `OpcodeLayouts` is proved once below so that
facts about `layoutOf` can be settled by evaluating this literal. -/
def oltTable : List OpcodeLayoutType :=
  [OpcodeLayoutType.OPCODE_ONLY, OpcodeLayoutType.OPCODE_ONLY, OpcodeLayoutType.OPCODE_ONLY,
   OpcodeLayoutType.OPCODE_ONLY, OpcodeLayoutType.OPCODE_ONLY, OpcodeLayoutType.OPCODE_ONLY,
   OpcodeLayoutType.OPCODE_ONLY, OpcodeLayoutType.OPCODE_ONLY, OpcodeLayoutType.OPCODE_ONLY,
   OpcodeLayoutType.OPCODE_ONLY, OpcodeLayoutType.OPCODE_ONLY, OpcodeLayoutType.OPCODE_ONLY,
   OpcodeLayoutType.OPCODE_ONLY, OpcodeLayoutType.OPCODE_ONLY, OpcodeLayoutType.OPCODE_ONLY,
   OpcodeLayoutType.OPCODE_ONLY, OpcodeLayoutType.INT8_VALUE, OpcodeLayoutType.INT16_VALUE,
   OpcodeLayoutType.CONSTANT_POOL_UINT8, OpcodeLayoutType.CONSTANT_POOL, OpcodeLayoutType.CONSTANT_POOL,
   OpcodeLayoutType.UINT8_VALUE, OpcodeLayoutType.UINT8_VALUE, OpcodeLayoutType.UINT8_VALUE,
   OpcodeLayoutType.UINT8_VALUE, OpcodeLayoutType.UINT8_VALUE, OpcodeLayoutType.OPCODE_ONLY,
   OpcodeLayoutType.OPCODE_ONLY, OpcodeLayoutType.OPCODE_ONLY, OpcodeLayoutType.OPCODE_ONLY,
   OpcodeLayoutType.OPCODE_ONLY, OpcodeLayoutType.OPCODE_ONLY, OpcodeLayoutType.OPCODE_ONLY,
   OpcodeLayoutType.OPCODE_ONLY, OpcodeLayoutType.OPCODE_ONLY, OpcodeLayoutType.OPCODE_ONLY,
   OpcodeLayoutType.OPCODE_ONLY, OpcodeLayoutType.OPCODE_ONLY, OpcodeLayoutType.OPCODE_ONLY,
   OpcodeLayoutType.OPCODE_ONLY, OpcodeLayoutType.OPCODE_ONLY, OpcodeLayoutType.OPCODE_ONLY,
   OpcodeLayoutType.OPCODE_ONLY, OpcodeLayoutType.OPCODE_ONLY, OpcodeLayoutType.OPCODE_ONLY,
   OpcodeLayoutType.OPCODE_ONLY, OpcodeLayoutType.OPCODE_ONLY, OpcodeLayoutType.OPCODE_ONLY,
   OpcodeLayoutType.OPCODE_ONLY, OpcodeLayoutType.OPCODE_ONLY, OpcodeLayoutType.OPCODE_ONLY,
   OpcodeLayoutType.OPCODE_ONLY, OpcodeLayoutType.OPCODE_ONLY, OpcodeLayoutType.OPCODE_ONLY,
   OpcodeLayoutType.UINT8_VALUE, OpcodeLayoutType.UINT8_VALUE, OpcodeLayoutType.UINT8_VALUE,
   OpcodeLayoutType.UINT8_VALUE, OpcodeLayoutType.UINT8_VALUE, OpcodeLayoutType.OPCODE_ONLY,
   OpcodeLayoutType.OPCODE_ONLY, OpcodeLayoutType.OPCODE_ONLY, OpcodeLayoutType.OPCODE_ONLY,
   OpcodeLayoutType.OPCODE_ONLY, OpcodeLayoutType.OPCODE_ONLY, OpcodeLayoutType.OPCODE_ONLY,
   OpcodeLayoutType.OPCODE_ONLY, OpcodeLayoutType.OPCODE_ONLY, OpcodeLayoutType.OPCODE_ONLY,
   OpcodeLayoutType.OPCODE_ONLY, OpcodeLayoutType.OPCODE_ONLY, OpcodeLayoutType.OPCODE_ONLY,
   OpcodeLayoutType.OPCODE_ONLY, OpcodeLayoutType.OPCODE_ONLY, OpcodeLayoutType.OPCODE_ONLY,
   OpcodeLayoutType.OPCODE_ONLY, OpcodeLayoutType.OPCODE_ONLY, OpcodeLayoutType.OPCODE_ONLY,
   OpcodeLayoutType.OPCODE_ONLY, OpcodeLayoutType.OPCODE_ONLY, OpcodeLayoutType.OPCODE_ONLY,
   OpcodeLayoutType.OPCODE_ONLY, OpcodeLayoutType.OPCODE_ONLY, OpcodeLayoutType.OPCODE_ONLY,
   OpcodeLayoutType.OPCODE_ONLY, OpcodeLayoutType.OPCODE_ONLY, OpcodeLayoutType.OPCODE_ONLY,
   OpcodeLayoutType.OPCODE_ONLY, OpcodeLayoutType.OPCODE_ONLY, OpcodeLayoutType.OPCODE_ONLY,
   OpcodeLayoutType.OPCODE_ONLY, OpcodeLayoutType.OPCODE_ONLY, OpcodeLayoutType.OPCODE_ONLY,
   OpcodeLayoutType.OPCODE_ONLY, OpcodeLayoutType.OPCODE_ONLY, OpcodeLayoutType.OPCODE_ONLY,
   OpcodeLayoutType.OPCODE_ONLY, OpcodeLayoutType.OPCODE_ONLY, OpcodeLayoutType.OPCODE_ONLY,
   OpcodeLayoutType.OPCODE_ONLY, OpcodeLayoutType.OPCODE_ONLY, OpcodeLayoutType.OPCODE_ONLY,
   OpcodeLayoutType.OPCODE_ONLY, OpcodeLayoutType.OPCODE_ONLY, OpcodeLayoutType.OPCODE_ONLY,
   OpcodeLayoutType.OPCODE_ONLY, OpcodeLayoutType.OPCODE_ONLY, OpcodeLayoutType.OPCODE_ONLY,
   OpcodeLayoutType.OPCODE_ONLY, OpcodeLayoutType.OPCODE_ONLY, OpcodeLayoutType.OPCODE_ONLY,
   OpcodeLayoutType.OPCODE_ONLY, OpcodeLayoutType.OPCODE_ONLY, OpcodeLayoutType.OPCODE_ONLY,
   OpcodeLayoutType.OPCODE_ONLY, OpcodeLayoutType.OPCODE_ONLY, OpcodeLayoutType.OPCODE_ONLY,
   OpcodeLayoutType.OPCODE_ONLY, OpcodeLayoutType.OPCODE_ONLY, OpcodeLayoutType.OPCODE_ONLY,
   OpcodeLayoutType.OPCODE_ONLY, OpcodeLayoutType.OPCODE_ONLY, OpcodeLayoutType.OPCODE_ONLY,
   OpcodeLayoutType.OPCODE_ONLY, OpcodeLayoutType.OPCODE_ONLY, OpcodeLayoutType.OPCODE_ONLY,
   OpcodeLayoutType.OPCODE_ONLY, OpcodeLayoutType.OPCODE_ONLY, OpcodeLayoutType.OPCODE_ONLY,
   OpcodeLayoutType.OPCODE_ONLY, OpcodeLayoutType.OPCODE_ONLY, OpcodeLayoutType.OPCODE_ONLY,
   OpcodeLayoutType.UINT8_AND_INT8_VALUE, OpcodeLayoutType.OPCODE_ONLY, OpcodeLayoutType.OPCODE_ONLY,
   OpcodeLayoutType.OPCODE_ONLY, OpcodeLayoutType.OPCODE_ONLY, OpcodeLayoutType.OPCODE_ONLY,
   OpcodeLayoutType.OPCODE_ONLY, OpcodeLayoutType.OPCODE_ONLY, OpcodeLayoutType.OPCODE_ONLY,
   OpcodeLayoutType.OPCODE_ONLY, OpcodeLayoutType.OPCODE_ONLY, OpcodeLayoutType.OPCODE_ONLY,
   OpcodeLayoutType.OPCODE_ONLY, OpcodeLayoutType.OPCODE_ONLY, OpcodeLayoutType.OPCODE_ONLY,
   OpcodeLayoutType.OPCODE_ONLY, OpcodeLayoutType.OPCODE_ONLY, OpcodeLayoutType.OPCODE_ONLY,
   OpcodeLayoutType.OPCODE_ONLY, OpcodeLayoutType.OPCODE_ONLY, OpcodeLayoutType.OPCODE_ONLY,
   OpcodeLayoutType.INT16_VALUE, OpcodeLayoutType.INT16_VALUE, OpcodeLayoutType.INT16_VALUE,
   OpcodeLayoutType.INT16_VALUE, OpcodeLayoutType.INT16_VALUE, OpcodeLayoutType.INT16_VALUE,
   OpcodeLayoutType.INT16_VALUE, OpcodeLayoutType.INT16_VALUE, OpcodeLayoutType.INT16_VALUE,
   OpcodeLayoutType.INT16_VALUE, OpcodeLayoutType.INT16_VALUE, OpcodeLayoutType.INT16_VALUE,
   OpcodeLayoutType.INT16_VALUE, OpcodeLayoutType.INT16_VALUE, OpcodeLayoutType.INT16_VALUE,
   OpcodeLayoutType.INT16_VALUE, OpcodeLayoutType.UINT8_VALUE, OpcodeLayoutType.OPCODE_ONLY,
   OpcodeLayoutType.OPCODE_ONLY, OpcodeLayoutType.OPCODE_ONLY, OpcodeLayoutType.OPCODE_ONLY,
   OpcodeLayoutType.OPCODE_ONLY, OpcodeLayoutType.OPCODE_ONLY, OpcodeLayoutType.OPCODE_ONLY,
   OpcodeLayoutType.OPCODE_ONLY, OpcodeLayoutType.CONSTANT_POOL, OpcodeLayoutType.CONSTANT_POOL,
   OpcodeLayoutType.CONSTANT_POOL, OpcodeLayoutType.CONSTANT_POOL, OpcodeLayoutType.CONSTANT_POOL,
   OpcodeLayoutType.CONSTANT_POOL, OpcodeLayoutType.CONSTANT_POOL, OpcodeLayoutType.CONSTANT_POOL_AND_UINT8_VALUE,
   OpcodeLayoutType.CONSTANT_POOL, OpcodeLayoutType.CONSTANT_POOL, OpcodeLayoutType.ARRAY_TYPE,
   OpcodeLayoutType.CONSTANT_POOL, OpcodeLayoutType.OPCODE_ONLY, OpcodeLayoutType.OPCODE_ONLY,
   OpcodeLayoutType.CONSTANT_POOL, OpcodeLayoutType.CONSTANT_POOL, OpcodeLayoutType.OPCODE_ONLY,
   OpcodeLayoutType.OPCODE_ONLY, OpcodeLayoutType.OPCODE_ONLY, OpcodeLayoutType.CONSTANT_POOL_AND_UINT8_VALUE,
   OpcodeLayoutType.INT16_VALUE, OpcodeLayoutType.INT16_VALUE, OpcodeLayoutType.INT32_VALUE,
   OpcodeLayoutType.INT32_VALUE, OpcodeLayoutType.OPCODE_ONLY, OpcodeLayoutType.OPCODE_ONLY,
   OpcodeLayoutType.OPCODE_ONLY, OpcodeLayoutType.OPCODE_ONLY, OpcodeLayoutType.OPCODE_ONLY,
   OpcodeLayoutType.OPCODE_ONLY, OpcodeLayoutType.CONSTANT_POOL, OpcodeLayoutType.CONSTANT_POOL,
   OpcodeLayoutType.CONSTANT_POOL, OpcodeLayoutType.CONSTANT_POOL, OpcodeLayoutType.CONSTANT_POOL,
   OpcodeLayoutType.CONSTANT_POOL, OpcodeLayoutType.CONSTANT_POOL, OpcodeLayoutType.CONSTANT_POOL,
   OpcodeLayoutType.CONSTANT_POOL, OpcodeLayoutType.CONSTANT_POOL, OpcodeLayoutType.CONSTANT_POOL,
   OpcodeLayoutType.CONSTANT_POOL, OpcodeLayoutType.CONSTANT_POOL, OpcodeLayoutType.CONSTANT_POOL,
   OpcodeLayoutType.CONSTANT_POOL, OpcodeLayoutType.CONSTANT_POOL, OpcodeLayoutType.OPCODE_ONLY,
   OpcodeLayoutType.OPCODE_ONLY, OpcodeLayoutType.OPCODE_ONLY, OpcodeLayoutType.OPCODE_ONLY,
   OpcodeLayoutType.OPCODE_ONLY, OpcodeLayoutType.OPCODE_ONLY, OpcodeLayoutType.OPCODE_ONLY,
   OpcodeLayoutType.OPCODE_ONLY, OpcodeLayoutType.OPCODE_ONLY, OpcodeLayoutType.OPCODE_ONLY,
   OpcodeLayoutType.OPCODE_ONLY, OpcodeLayoutType.OPCODE_ONLY, OpcodeLayoutType.OPCODE_ONLY,
   OpcodeLayoutType.OPCODE_ONLY, OpcodeLayoutType.OPCODE_ONLY, OpcodeLayoutType.OPCODE_ONLY,
   OpcodeLayoutType.CONSTANT_POOL, OpcodeLayoutType.CONSTANT_POOL, OpcodeLayoutType.CONSTANT_POOL_AND_UINT8_VALUE,
   OpcodeLayoutType.OPCODE_ONLY, OpcodeLayoutType.OPCODE_ONLY, OpcodeLayoutType.OPCODE_ONLY,
   OpcodeLayoutType.OPCODE_ONLY, OpcodeLayoutType.OPCODE_ONLY, OpcodeLayoutType.OPCODE_ONLY,
   OpcodeLayoutType.OPCODE_ONLY, OpcodeLayoutType.OPCODE_ONLY, OpcodeLayoutType.OPCODE_ONLY,
   OpcodeLayoutType.OPCODE_ONLY, OpcodeLayoutType.OPCODE_ONLY, OpcodeLayoutType.OPCODE_ONLY]

theorem OpcodeLayouts_eq : OpcodeLayouts = oltTable := by decide

theorem layoutOf_eq (opcode : Nat) : layoutOf opcode = oltTable[opcode]? := by
  rw [layoutOf, OpcodeLayouts_eq]

/-- Pairs (fast variant, canonical source opcode) for every Doppio-private
fast opcode declared in the `OpCode` enum. -/
def fastOpcodePairs : List (Nat × Nat) :=
  [(OpCode.GETSTATIC_FAST32, OpCode.GETSTATIC),
   (OpCode.GETSTATIC_FAST64, OpCode.GETSTATIC),
   (OpCode.NEW_FAST, OpCode.NEW),
   (OpCode.NEW_CL_FAST, OpCode.NEW),
   (OpCode.NEW_THREAD_FAST, OpCode.NEW),
   (OpCode.ANEWARRAY_FAST, OpCode.ANEWARRAY),
   (OpCode.CHECKCAST_FAST, OpCode.CHECKCAST),
   (OpCode.INSTANCEOF_FAST, OpCode.INSTANCEOF),
   (OpCode.MULTIANEWARRAY_FAST, OpCode.MULTIANEWARRAY),
   (OpCode.PUTSTATIC_FAST32, OpCode.PUTSTATIC),
   (OpCode.PUTSTATIC_FAST64, OpCode.PUTSTATIC),
   (OpCode.GETFIELD_FAST32, OpCode.GETFIELD),
   (OpCode.GETFIELD_FAST64, OpCode.GETFIELD),
   (OpCode.PUTFIELD_FAST32, OpCode.PUTFIELD),
   (OpCode.PUTFIELD_FAST64, OpCode.PUTFIELD),
   (OpCode.INVOKESPECIAL_FAST, OpCode.INVOKESPECIAL),
   (OpCode.INVOKESTATIC_FAST, OpCode.INVOKESTATIC),
   (OpCode.INVOKEVIRTUAL_FAST, OpCode.INVOKEVIRTUAL),
   (OpCode.INVOKEINTERFACE_FAST, OpCode.INVOKEINTERFACE)]

/-- Claim C1, counterexample: the lookup the claim requires to be defined
at every byte 0..255 yields `undefined` at byte 0xFF, because the array is
created with length 0xff (255 slots, indices 0..254). -/
theorem layoutOf_undefined_at_255 : layoutOf 0xFF = none := by
  rw [layoutOf_eq]
  decide

/-- Claim C1 (amended): the layout array has length 0xff = 255, and the
lookup is defined exactly for the bytes 0..254 — a range that contains
every opcode the enum declares (the maximum is 0xF2). -/
theorem layoutOf_defined_below_255 :
    OpcodeLayouts.length = 0xFF ∧
    ∀ b : Nat, b < 0xFF → (layoutOf b).isSome = true := by
  have hlen : OpcodeLayouts.length = 0xFF := by rw [OpcodeLayouts_eq]; decide
  refine ⟨hlen, fun b hb => ?_⟩
  rw [layoutOf, List.getElem?_eq_getElem (by rw [hlen]; exact hb)]
  rfl

/-- Claim C1, witness: instantiates the amended totality statement at the
largest declared opcode value, 0xF2. -/
theorem layoutOf_defined_below_255_w :
    0xF2 < 0xFF ∧ (layoutOf 0xF2).isSome = true :=
  ⟨by decide, layoutOf_defined_below_255.2 0xF2 (by decide)⟩

/-- Claim C2: evaluating the table at the opcode the claim equates shows
the divergence — `MULTIANEWARRAY_FAST` is assigned `CONSTANT_POOL` while
its source opcode `MULTIANEWARRAY` has `CONSTANT_POOL_AND_UINT8_VALUE`,
and of the nineteen fast variants this is the only pair whose layouts
differ. -/
theorem multianewarray_fast_layout_diverges :
    layoutOf OpCode.MULTIANEWARRAY_FAST = some OpcodeLayoutType.CONSTANT_POOL ∧
    layoutOf OpCode.MULTIANEWARRAY
      = some OpcodeLayoutType.CONSTANT_POOL_AND_UINT8_VALUE ∧
    fastOpcodePairs.filter
        (fun p => !(decide (layoutOf p.1 = layoutOf p.2)))
      = [(OpCode.MULTIANEWARRAY_FAST, OpCode.MULTIANEWARRAY)] := by
  refine ⟨?_, ?_, ?_⟩ <;> simp only [layoutOf_eq] <;> decide

/-- Claim C3, counterexample: byte 0xFF appears in no assignment list, yet
its lookup does not produce the default `OPCODE_ONLY` — it is outside the
length-255 array and yields `undefined`. -/
theorem unassigned_255_lookup :
    allAssignedOpcodes.contains 0xFF = false ∧ layoutOf 0xFF = none := by
  refine ⟨by decide, ?_⟩
  rw [layoutOf_eq]
  decide

/-- Claim C3 (amended): every byte below 0xff = 255 that appears in no
`assignOpcodeLayout` list maps to the default zero-operand layout
`OPCODE_ONLY`; byte 0xFF, outside the array, is the sole exception to the
spec's stated totality of the default. -/
theorem unassigned_default_below_255 :
    ∀ b : Nat, b < 0xFF → allAssignedOpcodes.contains b = false →
      layoutOf b = some OpcodeLayoutType.OPCODE_ONLY := by
  simp only [layoutOf_eq]
  decide

/-- Claim C3, witness: instantiates the amended default-layout statement at
the unassigned opcode 0x57 (POP). -/
theorem unassigned_default_below_255_w :
    (0x57 < 0xFF ∧ allAssignedOpcodes.contains 0x57 = false) ∧
    layoutOf 0x57 = some OpcodeLayoutType.OPCODE_ONLY :=
  ⟨⟨by decide, by decide⟩, unassigned_default_below_255 0x57 (by decide) (by decide)⟩

/-- Claim C4: every opcode in an assignment list ends up mapped to exactly
the layout of that assignment, and no opcode value occurs in two assignment
lists (the concatenation of all nine lists has no duplicate). -/
theorem assigned_layouts_exact :
    (layoutAssignments.all fun p => p.2.all fun op =>
      decide (layoutOf op = some p.1)) = true ∧
    allAssignedOpcodes.Nodup := by
  refine ⟨?_, by decide⟩
  simp only [layoutOf_eq]
  decide

/-- Claim C5, counterexample: assigning a second layout to an opcode that
already holds a non-default layout raises nothing and silently overwrites —
after assigning `INT8_VALUE` and then `INT16_VALUE` to BIPUSH, the slot
holds `INT16_VALUE`. -/
theorem assign_duplicate_overwrites_cex :
    (assignOpcodeLayout (assignOpcodeLayout oltInit
        OpcodeLayoutType.INT8_VALUE [OpCode.BIPUSH])
        OpcodeLayoutType.INT16_VALUE [OpCode.BIPUSH])[OpCode.BIPUSH]?
      = some OpcodeLayoutType.INT16_VALUE := by decide

/-- Claim C5 (amended): `assignOpcodeLayout` contains no duplicate check
and cannot fail; for any table and any in-range opcode, assigning one
layout and then another leaves the second, unconditionally. -/
theorem assign_duplicate_overwrites (t : List OpcodeLayoutType)
    (l1 l2 : OpcodeLayoutType) (op : Nat) (h : op < t.length) :
    (assignOpcodeLayout (assignOpcodeLayout t l1 [op]) l2 [op])[op]?
      = some l2 := by
  simp only [assignOpcodeLayout, List.foldl_cons, List.foldl_nil]
  rw [List.getElem?_set_self (by simpa using h)]

/-- Claim C5, witness: instantiates the silent-overwrite statement on the
fresh table at opcode NOP. -/
theorem assign_duplicate_overwrites_w :
    OpCode.NOP < oltInit.length ∧
    (assignOpcodeLayout (assignOpcodeLayout oltInit
        OpcodeLayoutType.UINT8_VALUE [OpCode.NOP])
        OpcodeLayoutType.ARRAY_TYPE [OpCode.NOP])[OpCode.NOP]?
      = some OpcodeLayoutType.ARRAY_TYPE :=
  ⟨by decide, assign_duplicate_overwrites oltInit
    OpcodeLayoutType.UINT8_VALUE OpcodeLayoutType.ARRAY_TYPE OpCode.NOP (by decide)⟩

/-- Claim C6, counterexample: the constant is NOT distinct from the
two's-complement reading of the IEEE-754 negative-infinity pattern — the
decimal literal -8388608 is exactly `toInt32 0xFF800000`
(0xFF800000 - 2^32 = -8388608). -/
theorem neg_infinity_int_equals_bit_pattern :
    Constants.FLOAT_NEG_INFINITY_AS_INT = toInt32 0xFF800000 := by decide

/-- Claim C6 (amended): `FLOAT_NEG_INFINITY_AS_INT` is the decimal integer
-8388608, which coincides with the 32-bit two's-complement interpretation
of the negative-infinity bit pattern 0xFF800000. -/
theorem neg_infinity_int_value :
    Constants.FLOAT_NEG_INFINITY_AS_INT = -8388608 ∧
    toInt32 0xFF800000 = -8388608 := by decide

/-- Claim C7: the float-reinterpretation constants carry the spec's fixed
values — positive infinity 0x7F800000 and the canonical quiet-NaN pattern
0x7FC00000. -/
theorem float_bit_pattern_constants :
    Constants.FLOAT_POS_INFINITY_AS_INT = 0x7F800000 ∧
    Constants.FLOAT_NaN_AS_INT = 0x7FC00000 := by decide

/-- Modelled from the spec: the conversions `floatBitsToInt` and
`intBitsToFloat` of the numeric constant model are not in `src/enums.ts`
(only the canonical constants they use are).  A float is represented by
its IEEE-754 single-precision bit pattern, a `Nat` below `2 ^ 32`; this is
the IEEE NaN test on such a pattern: exponent field all ones, mantissa
nonzero. -/
def isNaNBits (bits : Nat) : Bool :=
  decide ((bits / 2 ^ 23) % 2 ^ 8 = 0xFF) && !(decide (bits % 2 ^ 23 = 0))

/-- Modelled from the spec: `floatBitsToInt(f) → int32`; any NaN input maps
to the single canonical pattern `FLOAT_NaN_AS_INT`, and every other bit
pattern is reinterpreted as a 32-bit two's-complement integer (sending the
infinity patterns to their fixed integer constants). -/
def floatBitsToInt (bits : Nat) : Int :=
  if isNaNBits bits then Constants.FLOAT_NaN_AS_INT else toInt32 bits

/-- Modelled from the spec: `intBitsToFloat(i) → float`, the inverse
reinterpretation, total over all 32-bit inputs: the resulting float is the
one whose bit pattern is the two's-complement encoding of `i`. -/
def intBitsToFloat (i : Int) : Nat := (i % 2 ^ 32).toNat

/-- Claim C8: round-trip law — `intBitsToFloat (floatBitsToInt x) = x` for
every non-NaN 32-bit pattern, and on NaN patterns the round trip is
idempotent (a second application changes nothing, since the first already
lands on the canonical quiet-NaN pattern). -/
theorem float_int_bits_roundtrip :
    (∀ bits : Nat, bits < 2 ^ 32 → isNaNBits bits = false →
      intBitsToFloat (floatBitsToInt bits) = bits) ∧
    (∀ bits : Nat, isNaNBits bits = true →
      intBitsToFloat (floatBitsToInt (intBitsToFloat (floatBitsToInt bits)))
        = intBitsToFloat (floatBitsToInt bits)) := by
  constructor
  · intro bits hlt hnan
    have h1 : floatBitsToInt bits = toInt32 bits := by
      simp [floatBitsToInt, hnan]
    rw [h1, toInt32, intBitsToFloat]
    have hm : bits % 2 ^ 32 = bits := Nat.mod_eq_of_lt hlt
    rw [hm]
    split <;> omega
  · intro bits hnan
    have h1 : floatBitsToInt bits = Constants.FLOAT_NaN_AS_INT := by
      simp [floatBitsToInt, hnan]
    rw [h1]
    decide

/-- Claim C8, witness: the round trip at the non-NaN pattern of 1.0f
(0x3F800000) and the idempotence at the non-canonical NaN pattern
0x7F800001. -/
theorem float_int_bits_roundtrip_w :
    ((0x3F800000 < 2 ^ 32 ∧ isNaNBits 0x3F800000 = false) ∧
      intBitsToFloat (floatBitsToInt 0x3F800000) = 0x3F800000) ∧
    (isNaNBits 0x7F800001 = true ∧
      intBitsToFloat (floatBitsToInt (intBitsToFloat (floatBitsToInt 0x7F800001)))
        = intBitsToFloat (floatBitsToInt 0x7F800001)) :=
  ⟨⟨⟨by decide, by decide⟩, float_int_bits_roundtrip.1 0x3F800000 (by decide) (by decide)⟩,
   ⟨by decide, float_int_bits_roundtrip.2 0x7F800001 (by decide)⟩⟩

/-- Modelled from the spec: the loader pipeline that advances a class is
external to `src/enums.ts`; the lifecycle of section 4.3 is a linear
progression where each observable transition either idempotently
re-requests the current state or moves one step forward. -/
def ClassState.next : ClassState → ClassState
  | .NOT_LOADED => .LOADED
  | .LOADED => .RESOLVED
  | .RESOLVED => .INITIALIZED
  | .INITIALIZED => .INITIALIZED

/-- Modelled from the spec: one observable class-state transition — stay
(coalesced/idempotent re-request) or advance one step. -/
def classStep (s t : ClassState) : Bool :=
  decide (t = s) || decide (t = s.next)

/-- Claim C9: the `ClassState` enum assigns strictly increasing numeric
values along the lifecycle order, and along any sequence of observable
transitions the state never regresses: the observed values are pairwise
monotonically nondecreasing. -/
theorem class_state_monotonic :
    (ClassState.NOT_LOADED.val < ClassState.LOADED.val ∧
     ClassState.LOADED.val < ClassState.RESOLVED.val ∧
     ClassState.RESOLVED.val < ClassState.INITIALIZED.val) ∧
    ∀ states : List ClassState,
      List.Chain' (fun s t => classStep s t = true) states →
      List.Pairwise (fun s t => ClassState.val s ≤ ClassState.val t) states := by
  refine ⟨by decide, fun states h => ?_⟩
  have mono : ∀ s t : ClassState, classStep s t = true → s.val ≤ t.val :=
    fun s t => by cases s <;> cases t <;> decide
  have h2 : List.Chain' (fun s t : ClassState => s.val ≤ t.val) states :=
    h.imp fun a b hab => mono a b hab
  haveI : IsTrans ClassState (fun s t => ClassState.val s ≤ ClassState.val t) :=
    ⟨fun _ _ _ hab hbc => le_trans hab hbc⟩
  exact List.chain'_iff_pairwise.mp h2

/-- Claim C9, witness: a full lifecycle trace with idempotent re-requests,
checked to be a valid transition chain and monotone. -/
theorem class_state_monotonic_w :
    List.Chain' (fun s t => classStep s t = true)
      [ClassState.NOT_LOADED, ClassState.LOADED, ClassState.LOADED,
       ClassState.RESOLVED, ClassState.INITIALIZED, ClassState.INITIALIZED] ∧
    List.Pairwise (fun s t => ClassState.val s ≤ ClassState.val t)
      [ClassState.NOT_LOADED, ClassState.LOADED, ClassState.LOADED,
       ClassState.RESOLVED, ClassState.INITIALIZED, ClassState.INITIALIZED] :=
  ⟨by simp [List.chain'_cons, classStep, ClassState.next],
   class_state_monotonic.2 _
     (by simp [List.chain'_cons, classStep, ClassState.next])⟩

/-- Claim C10: the 222 `OpCode` enum members are pairwise distinct, all lie
in 0x00..0xF2, and consequently every opcode that the construction passes
to `assignOpcodeLayout` indexes inside the initialized region of the layout
array (indices 0..254) — no write goes out of bounds. -/
theorem opcode_values_distinct_and_bounded :
    opCodeValues.Nodup ∧
    (opCodeValues.all fun v => decide (v ≤ 0xF2)) = true ∧
    (allAssignedOpcodes.all fun op => decide (op < oltInit.length)) = true :=
  ⟨by decide, by decide, by decide⟩
